import Mathlib

/-!
Shallow embedding of the Hacker News newsletter agent's retrieval and
filtering layer (src/hackernews-api.ts) and of the `fetch_article` tool
wrapper (the tool-definition module imported by the agent), for checking
the natural-language specification against the code.

Network effects are made explicit: every HTTP interaction is represented
by a `FetchOutcome` value supplied by an abstract world (an oracle
function), and every operation that may issue a scrape request returns,
next to its result, the list of scrape requests it issued, so that
"performs no network call" is a statement about that trace.

JavaScript numbers occurring in the code are modelled as `Int`
(identifiers, timestamps, scores); the only operation that can produce a
non-integer number here is `parseInt`, whose NaN outcome is modelled by
the dedicated type `JSInt`. JSON itself cannot encode NaN, so every
JSON-sourced number is an `Int`. `Date.now() / 1000` is modelled as an
integer number of seconds (`now`).
-/

namespace HN

/-- A value thrown by the JavaScript runtime: either an `Error` with a
message, or some non-`Error` value (the code distinguishes these with
`error instanceof Error`). -/
inductive JSException : Type
  | error (msg : String)
  | nonError
deriving DecidableEq

/-- Outcome of one `fetch` call: either the promise rejects
(transport-level exception), or a response arrives with an HTTP status,
a body text (`response.text()`) and the parsed JSON body
(`response.json()`), the latter typed per endpoint. -/
inductive FetchOutcome (α : Type) : Type
  | throw (exn : JSException)
  | resp (status : Nat) (bodyText : String) (json : α)

/-- The `Response.ok` flag of the Fetch API: status in the range 200-299. -/
def respOk (status : Nat) : Bool :=
  decide (200 ≤ status) && decide (status ≤ 299)

/-- A JavaScript number that is either an integer or NaN (result of
`parseInt` on a non-numeric string). -/
inductive JSInt : Type
  | int (n : Int)
  | nan
deriving DecidableEq

/-- The `type` field of an item (source: the string-literal union in
`HNItem`). -/
inductive HNType : Type
  | story
  | comment
  | job
  | poll
  | pollopt
deriving DecidableEq

/-- The `HNItem` interface of src/hackernews-api.ts. Optional interface
fields become `Option` fields. -/
structure HNItem : Type where
  id : JSInt
  type : HNType
  «by» : String
  time : Int
  text : Option String := none
  dead : Option Bool := none
  parent : Option Int := none
  poll : Option Int := none
  kids : Option (List Int) := none
  url : Option String := none
  score : Option Int := none
  title : Option String := none
  parts : Option (List Int) := none
  descendants : Option Int := none
deriving DecidableEq

/-- Embedding of `getItem`: on a rejected fetch the catch block returns
null; on a non-ok response the code returns null; otherwise the parsed
JSON body (the item endpoint returns a JSON object or null, hence
`Option HNItem`). -/
def getItem (r : FetchOutcome (Option HNItem)) : Option HNItem :=
  match r with
  | FetchOutcome.throw _ => none
  | FetchOutcome.resp status _ json => if respOk status then json else none

/-- JavaScript `Array.prototype.slice(0, endIdx)`: a negative end index
counts from the end of the array (`max (len + endIdx) 0`), a
non-negative one is clamped to the length. -/
def jsSlice0 {α : Type} (xs : List α) (endIdx : Int) : List α :=
  let len : Int := xs.length
  let fin : Int := if endIdx < 0 then max (len + endIdx) 0 else min endIdx len
  xs.take fin.toNat

/-- Embedding of `getTopStories`: fetches the topstories.json feed
(whose outcome is `r`), returns `[]` on a rejected fetch or a non-ok
response, otherwise `ids.slice(0, limit)`. -/
def getTopStories (r : FetchOutcome (List Int)) (limit : Int := 30) : List Int :=
  match r with
  | FetchOutcome.throw _ => []
  | FetchOutcome.resp status _ ids => if respOk status then jsSlice0 ids limit else []

/-- Embedding of `getNewStories`: identical to `getTopStories` except
for the feed endpoint it contacts (newstories.json), which in this model
is reflected in which outcome `r` the world supplies. -/
def getNewStories (r : FetchOutcome (List Int)) (limit : Int := 30) : List Int :=
  match r with
  | FetchOutcome.throw _ => []
  | FetchOutcome.resp status _ ids => if respOk status then jsSlice0 ids limit else []

/-- Embedding of `getBestStories`: identical to `getTopStories` except
for the feed endpoint it contacts (beststories.json). -/
def getBestStories (r : FetchOutcome (List Int)) (limit : Int := 30) : List Int :=
  match r with
  | FetchOutcome.throw _ => []
  | FetchOutcome.resp status _ ids => if respOk status then jsSlice0 ids limit else []

/-- Embedding of `getItems`: one `getItem` per identifier, all issued
concurrently and joined by `Promise.all` (which preserves input order),
then `filter(item => item !== null)`. The world `itemW` gives the fetch
outcome for each identifier. -/
def getItems (itemW : Int → FetchOutcome (Option HNItem)) (ids : List Int) : List HNItem :=
  let items := ids.map (fun i => getItem (itemW i))
  items.filterMap (fun item => item)

/-- Embedding of `getTodaysTopStories`: composes `getTopStories` and
`getItems`, then keeps items with `time >= now - 86400` (24 hours, with
`now` the integer value of `Date.now() / 1000` at call time) and
`type === "story"`. -/
def getTodaysTopStories (topR : FetchOutcome (List Int))
    (itemW : Int → FetchOutcome (Option HNItem)) (now : Int) (count : Int := 30) :
    List HNItem :=
  let topStoryIds := getTopStories topR count
  let stories := getItems itemW topStoryIds
  let oneDayAgo := now - 24 * 60 * 60
  stories.filter (fun s => decide (oneDayAgo ≤ s.time) && decide (s.type = HNType.story))

/-- One hit of the Algolia search response (`AlgoliaSearchResult.hits`
element type). -/
structure AlgoliaHit : Type where
  objectID : String
  title : String
  url : Option String := none
  author : String
  points : Int
  num_comments : Int
  created_at_i : Int
deriving DecidableEq

/-- The `AlgoliaSearchResult` interface. -/
structure AlgoliaSearchResult : Type where
  hits : List AlgoliaHit
  nbHits : Int
deriving DecidableEq

/-- Embedding of `searchStories`: on a rejected fetch the catch block
returns `{hits: [], nbHits: 0}`; a non-ok response makes the code throw
inside its own try, so the same catch block yields the same empty
result; an ok response is returned parsed. -/
def searchStories (r : FetchOutcome AlgoliaSearchResult) : AlgoliaSearchResult :=
  match r with
  | FetchOutcome.throw _ => { hits := [], nbHits := 0 }
  | FetchOutcome.resp status _ json =>
      if respOk status then json else { hits := [], nbHits := 0 }

/-- Value of a list of decimal digit characters. -/
def digitsVal (ds : List Char) : Nat :=
  ds.foldl (fun a c => 10 * a + (c.toNat - 48)) 0

/-- JavaScript `parseInt(s)` (radix 10): skip leading whitespace, read
an optional sign, then the longest prefix of decimal digits; NaN when
that prefix is empty. -/
def jsParseInt (s : String) : JSInt :=
  let cs := s.data.dropWhile (fun c => c == ' ' || c == '\t' || c == '\n' || c == '\r')
  match cs with
  | '-' :: rest =>
      let ds := rest.takeWhile Char.isDigit
      if ds.isEmpty then JSInt.nan else JSInt.int (-(digitsVal ds : Int))
  | '+' :: rest =>
      let ds := rest.takeWhile Char.isDigit
      if ds.isEmpty then JSInt.nan else JSInt.int (digitsVal ds : Int)
  | rest =>
      let ds := rest.takeWhile Char.isDigit
      if ds.isEmpty then JSInt.nan else JSInt.int (digitsVal ds : Int)

/-- Embedding of `algoliaToHNItem`: maps a search hit to the canonical
item shape; fields absent from the object literal stay undefined. -/
def algoliaToHNItem (hit : AlgoliaHit) : HNItem :=
  { id := jsParseInt hit.objectID
    type := HNType.story
    «by» := hit.author
    time := hit.created_at_i
    title := some hit.title
    url := hit.url
    score := some hit.points
    descendants := some hit.num_comments }

/-- The `FirecrawlMetadata` interface. -/
structure FirecrawlMetadata : Type where
  title : Option String := none
  description : Option String := none
  language : Option String := none
  keywords : Option String := none
  robots : Option String := none
  ogTitle : Option String := none
  ogDescription : Option String := none
  ogUrl : Option String := none
  ogImage : Option String := none
  ogLocaleAlternate : Option (List String) := none
  ogSiteName : Option String := none
  sourceURL : String := ""
  statusCode : Option Nat := none
deriving DecidableEq

/-- The `data` field type of `FirecrawlScrapeResult`. -/
structure FirecrawlScrapeData : Type where
  markdown : Option String := none
  html : Option String := none
  rawHtml : Option String := none
  screenshot : Option String := none
  links : Option (List String) := none
  metadata : Option FirecrawlMetadata := none
deriving DecidableEq

/-- The `FirecrawlScrapeResult` interface. -/
structure FirecrawlScrapeResult : Type where
  success : Bool
  data : Option FirecrawlScrapeData := none
  error : Option String := none
deriving DecidableEq

/-- The `FirecrawlScrapeOptions` interface. -/
structure FirecrawlScrapeOptions : Type where
  formats : Option (List String) := none
  onlyMainContent : Option Bool := none
  includeTags : Option (List String) := none
  excludeTags : Option (List String) := none
  headers : Option (List (String × String)) := none
  waitFor : Option Int := none
  timeout : Option Int := none
deriving DecidableEq

/-- One POST request to the Firecrawl scrape endpoint, as `scrapeUrl`
assembles it: the bearer token from the `apiKey` argument and the JSON
body built from the url, the defaulted options and the spread of the
remaining options. -/
structure ScrapeRequest : Type where
  url : String
  apiKey : String
  formats : List String
  onlyMainContent : Bool
  timeout : Int
  includeTags : Option (List String) := none
  excludeTags : Option (List String) := none
  headers : Option (List (String × String)) := none
  waitFor : Option Int := none
deriving DecidableEq

/-- The request `scrapeUrl` builds from its arguments, with the source
defaults `formats = ["markdown"]`, `onlyMainContent = true`,
`timeout = 30000`. -/
def mkScrapeRequest (url apiKey : String) (options : FirecrawlScrapeOptions) :
    ScrapeRequest :=
  { url := url
    apiKey := apiKey
    formats := options.formats.getD ["markdown"]
    onlyMainContent := options.onlyMainContent.getD true
    timeout := options.timeout.getD 30000
    includeTags := options.includeTags
    excludeTags := options.excludeTags
    headers := options.headers
    waitFor := options.waitFor }

/-- Embedding of `scrapeUrl`. The world maps the assembled request to
the outcome of the POST. Next to the result, the list of scrape
requests issued is returned: `scrapeUrl` always issues exactly one.
On a rejected fetch the catch block returns
`{success: false, error: message-or-"Unknown error"}`; on a non-ok
response it returns `{success: false, error:
"Firecrawl API error: <status> - <body text>"}`; on an ok response the
parsed JSON result is passed through unchanged. -/
def scrapeUrl (world : ScrapeRequest → FetchOutcome FirecrawlScrapeResult)
    (url apiKey : String) (options : FirecrawlScrapeOptions := {}) :
    FirecrawlScrapeResult × List ScrapeRequest :=
  let req := mkScrapeRequest url apiKey options
  match world req with
  | FetchOutcome.throw exn =>
      ({ success := false
         error := some (match exn with
           | JSException.error m => m
           | JSException.nonError => "Unknown error") }, [req])
  | FetchOutcome.resp status bodyText json =>
      if respOk status then (json, [req])
      else
        ({ success := false
           error := some ("Firecrawl API error: " ++ toString status ++ " - " ++ bodyText) },
         [req])

/-- A JSON value, as produced by the object literals the tools
stringify; `undefined` fields of a literal are dropped by
`JSON.stringify` and hence simply absent from the `obj` field list. -/
inductive Json : Type
  | str (s : String)
  | num (n : Int)
  | obj (fields : List (String × Json))

/-- Field lookup in a (stringified) JSON object. -/
def Json.getField : Json → String → Option Json
  | Json.obj fields, key => fields.lookup key
  | _, _ => none

/-- Renders an optional string field of an object literal: present when
the value is defined, dropped by `JSON.stringify` when undefined. -/
def optStrField (key : String) (v : Option String) : List (String × Json) :=
  match v with
  | some s => [(key, Json.str s)]
  | none => []

/-- JavaScript `a || b` for a possibly-undefined string `a`: the
fallback is used when `a` is undefined or the empty string (both
falsy). -/
def jsOrElse (v : Option String) (fallback : String) : String :=
  match v with
  | some s => if s = "" then fallback else s
  | none => fallback

/-- The validated argument object of the `fetch_article` tool. -/
structure FetchArticleInput : Type where
  url : String
  story_title : Option String := none
deriving DecidableEq

/-- The substring the discussion-page guard looks for. -/
def hnDiscussionPattern : String := "news.ycombinator.com/item"

/-- Tests whether `pat` occurs as a contiguous run inside `s`. -/
def containsSub (pat : List Char) : List Char → Bool
  | [] => pat.isEmpty
  | c :: rest => pat.isPrefixOf (c :: rest) || containsSub pat rest

/-- JavaScript `s.includes(pat)`: substring containment. -/
def jsIncludes (s pat : String) : Bool := containsSub pat.data s.data

/-- The error message returned when the Firecrawl API key is missing. -/
def missingKeyMessage : String :=
  "FIRECRAWL_API_KEY environment variable is not set. Please set it to use article summarization."

/-- The note returned by the discussion-page guard. -/
def discussionNote : String :=
  "This is a Hacker News discussion page, not an external article. It contains comments and discussion but no article content to scrape."

/-- Embedding of the `execute` function of `fetchArticleTool`. The
module-level constant `FIRECRAWL_API_KEY = Deno.env.get(...) || ""` is
the `firecrawlApiKey` argument ("" when the variable is missing); the
JavaScript truthiness test `!FIRECRAWL_API_KEY` is the test against the
empty string. Returns the object the tool stringifies, paired with the
scrape requests issued. The source checks the key first, then the
discussion-page pattern, and only then calls `scrapeUrl` with
`formats: ["markdown"], onlyMainContent: true, timeout: 30000`. -/
def fetchArticleExecute (world : ScrapeRequest → FetchOutcome FirecrawlScrapeResult)
    (firecrawlApiKey : String) (input : FetchArticleInput) :
    Json × List ScrapeRequest :=
  if firecrawlApiKey = "" then
    (Json.obj [("error", Json.str missingKeyMessage)], [])
  else if jsIncludes input.url hnDiscussionPattern then
    (Json.obj ([("url", Json.str input.url)]
      ++ optStrField "story_title" input.story_title
      ++ [("note", Json.str discussionNote)]), [])
  else
    let scraped := scrapeUrl world input.url firecrawlApiKey
      { formats := some ["markdown"], onlyMainContent := some true, timeout := some 30000 }
    let result := scraped.1
    match result.data, result.success with
    | some d, true =>
        (Json.obj ([("url", Json.str input.url)]
          ++ optStrField "story_title" input.story_title
          ++ [("content", Json.str (jsOrElse d.markdown "No content available")),
              ("metadata", Json.obj
                (optStrField "title" (d.metadata.bind FirecrawlMetadata.title)
                  ++ optStrField "description" (d.metadata.bind FirecrawlMetadata.description)
                  ++ optStrField "author" (d.metadata.bind FirecrawlMetadata.ogSiteName)))]),
         scraped.2)
    | _, _ =>
        (Json.obj ([("url", Json.str input.url)]
          ++ optStrField "story_title" input.story_title
          ++ [("error", Json.str (jsOrElse result.error "Failed to fetch article content"))]),
         scraped.2)

/-! ### Shared concrete data for witnesses and counterexamples -/

/-- A world whose every scrape request fails at the transport level. -/
def throwWorld : ScrapeRequest → FetchOutcome FirecrawlScrapeResult :=
  fun _ => FetchOutcome.throw (JSException.error "network down")

/-- A sample story item created at time 100. -/
def sampleItem : HNItem :=
  { id := JSInt.int 1, type := HNType.story, «by» := "alice", time := 100 }

/-- A world that resolves identifier 1 to `sampleItem` and lets every
other item fetch come back 404. -/
def sampleItemWorld : Int → FetchOutcome (Option HNItem) :=
  fun i => if i = 1 then FetchOutcome.resp 200 "" (some sampleItem)
           else FetchOutcome.resp 404 "" none

/-- A sample Algolia search hit. -/
def sampleHit : AlgoliaHit :=
  { objectID := "123", title := "T", author := "a", points := 5,
    num_comments := 2, created_at_i := 1000 }

/-! ### Helper lemmas -/

theorem getNewStories_eq_getTopStories (r : FetchOutcome (List Int)) (limit : Int) :
    getNewStories r limit = getTopStories r limit := rfl

theorem getBestStories_eq_getTopStories (r : FetchOutcome (List Int)) (limit : Int) :
    getBestStories r limit = getTopStories r limit := rfl

theorem jsSlice0_ofNat {α : Type} (xs : List α) (n : Nat) :
    jsSlice0 xs (n : Int) = xs.take n := by
  simp only [jsSlice0]
  rw [if_neg (by omega), List.take_eq_take]
  omega

theorem jsSlice0_neg {α : Type} (xs : List α) (e : Int) (h : e < 0) :
    jsSlice0 xs e = xs.take (xs.length - (-e).toNat) := by
  simp only [jsSlice0]
  rw [if_pos h, List.take_eq_take]
  omega

theorem getTopStories_resp (st : Nat) (bt : String) (feed : List Int) (limit : Int) :
    getTopStories (FetchOutcome.resp st bt feed) limit =
      if respOk st then jsSlice0 feed limit else [] := rfl

theorem getTopStories_throw (exn : JSException) (limit : Int) :
    getTopStories (FetchOutcome.throw exn) limit = [] := rfl

theorem filterMap_id_length {α : Type} (l : List (Option α)) :
    (l.filterMap (fun x => x)).length + (l.filter (fun x => x.isNone)).length = l.length := by
  induction l with
  | nil => rfl
  | cons x rest ih =>
      cases x <;> simp [List.filterMap_cons, List.filter_cons] <;> omega

theorem filterMap_id_sublist {α : Type} (l : List (Option α)) :
    ((l.filterMap (fun x => x)).map some).Sublist l := by
  induction l with
  | nil => simp
  | cons x rest ih =>
      cases x with
      | none => simpa [List.filterMap_cons] using ih.cons none
      | some a => simpa [List.filterMap_cons] using ih.cons₂ (some a)

theorem getItems_eq (itemW : Int → FetchOutcome (Option HNItem)) (ids : List Int) :
    getItems itemW ids = (ids.map (fun i => getItem (itemW i))).filterMap (fun x => x) := rfl

/-! ### Claim theorems -/

/-- C2: for every URL (indeed every input and every world), a
`fetch_article` tool call made while the Firecrawl API key is the empty
string (the value when the environment variable is missing) returns the
structured missing-key error object and performs no network call — the
trace of issued scrape requests is empty. -/
theorem fetchArticle_missing_key (world : ScrapeRequest → FetchOutcome FirecrawlScrapeResult)
    (input : FetchArticleInput) :
    fetchArticleExecute world "" input =
      (Json.obj [("error", Json.str missingKeyMessage)], []) := rfl

/-- C4: resolving n identifiers of which k resolve to absent yields at
most n - k items, and the surviving items appear in the same relative
order as their identifiers appeared in the input (the list of resolved
items, viewed through `some`, is a sublist of the per-identifier
resolution list). -/
theorem getItems_drop_failures_order (itemW : Int → FetchOutcome (Option HNItem))
    (ids : List Int) :
    (getItems itemW ids).length
        ≤ ids.length - (ids.filter (fun i => (getItem (itemW i)).isNone)).length
    ∧ ((getItems itemW ids).map some).Sublist (ids.map (fun i => getItem (itemW i))) := by
  constructor
  · have h1 := filterMap_id_length (ids.map (fun i => getItem (itemW i)))
    have h2 : (ids.map (fun i => getItem (itemW i))).filter (fun x => x.isNone)
        = (ids.filter (fun i => (getItem (itemW i)).isNone)).map (fun i => getItem (itemW i)) := by
      rw [List.filter_map]
      rfl
    rw [getItems_eq]
    rw [h2] at h1
    simp only [List.length_map] at h1
    omega
  · rw [getItems_eq]
    exact filterMap_id_sublist _

/-- C6: the search-hit-to-item mapping is a pure total function; on the
hit with objectID "123", title "T", author "a", 5 points, 2 comments
and creation time 1000 it yields the item with id 123, type story, by
"a", title "T", score 5, descendants 2 and time 1000; in general the
identifier is parsed from string to integer, points maps to score and
num_comments maps to descendants. -/
theorem algoliaToHNItem_spec :
    algoliaToHNItem sampleHit =
      { id := JSInt.int 123, type := HNType.story, «by» := "a", time := 1000,
        title := some "T", score := some 5, descendants := some 2 }
    ∧ (∀ hit : AlgoliaHit,
        (algoliaToHNItem hit).id = jsParseInt hit.objectID
        ∧ (algoliaToHNItem hit).type = HNType.story
        ∧ (algoliaToHNItem hit).«by» = hit.author
        ∧ (algoliaToHNItem hit).time = hit.created_at_i
        ∧ (algoliaToHNItem hit).title = some hit.title
        ∧ (algoliaToHNItem hit).url = hit.url
        ∧ (algoliaToHNItem hit).score = some hit.points
        ∧ (algoliaToHNItem hit).descendants = some hit.num_comments) :=
  ⟨by decide, fun hit => ⟨rfl, rfl, rfl, rfl, rfl, rfl, rfl, rfl⟩⟩

/-- C1 counterexample: the claim as stated fails at the empty API key.
With the empty key and the discussion-page URL
"https://news.ycombinator.com/item?id=123" (which does match the
guard's pattern), the tool returns the missing-key error object — a
payload that contains neither the original URL nor a note — because the
source checks the API key before the discussion-page guard. -/
theorem fetchArticle_discussion_empty_key_cex :
    jsIncludes "https://news.ycombinator.com/item?id=123" hnDiscussionPattern = true
    ∧ fetchArticleExecute throwWorld "" { url := "https://news.ycombinator.com/item?id=123" } =
        (Json.obj [("error", Json.str missingKeyMessage)], [])
    ∧ Json.getField
        (fetchArticleExecute throwWorld "" { url := "https://news.ycombinator.com/item?id=123" }).1
        "url" = none
    ∧ Json.getField
        (fetchArticleExecute throwWorld "" { url := "https://news.ycombinator.com/item?id=123" }).1
        "note" = none :=
  ⟨by decide, rfl, rfl, rfl⟩

/-- C1 (amended): for every scrape request whose URL matches the
discussion-page pattern, no network call is performed for any API key
value including the empty one; and whenever the API key is non-empty
the returned payload contains the original URL and the explanatory
note. (With the empty key the key check fires first and the payload is
the missing-key error instead.) -/
theorem fetchArticle_discussion_guard (world : ScrapeRequest → FetchOutcome FirecrawlScrapeResult)
    (key : String) (input : FetchArticleInput)
    (hpat : jsIncludes input.url hnDiscussionPattern = true) :
    (fetchArticleExecute world key input).2 = []
    ∧ (key ≠ "" →
        Json.getField (fetchArticleExecute world key input).1 "url"
            = some (Json.str input.url)
        ∧ Json.getField (fetchArticleExecute world key input).1 "note"
            = some (Json.str discussionNote)) := by
  by_cases hk : key = ""
  · subst hk
    exact ⟨rfl, fun h => absurd rfl h⟩
  · have e : fetchArticleExecute world key input =
        (Json.obj ([("url", Json.str input.url)]
          ++ optStrField "story_title" input.story_title
          ++ [("note", Json.str discussionNote)]), []) := by
      unfold fetchArticleExecute
      rw [if_neg hk, if_pos hpat]
    rw [e]
    refine ⟨rfl, fun _ => ⟨rfl, ?_⟩⟩
    cases h : input.story_title <;> rfl

/-- C1 witness: the amended claim at the concrete world `throwWorld`,
key "key" and the discussion URL with id 1. -/
theorem fetchArticle_discussion_guard_witness :
    (fetchArticleExecute throwWorld "key"
        { url := "https://news.ycombinator.com/item?id=1" }).2 = []
    ∧ ("key" ≠ "" →
        Json.getField (fetchArticleExecute throwWorld "key"
            { url := "https://news.ycombinator.com/item?id=1" }).1 "url"
          = some (Json.str "https://news.ycombinator.com/item?id=1")
        ∧ Json.getField (fetchArticleExecute throwWorld "key"
            { url := "https://news.ycombinator.com/item?id=1" }).1 "note"
          = some (Json.str discussionNote)) :=
  fetchArticle_discussion_guard throwWorld "key"
    { url := "https://news.ycombinator.com/item?id=1" } (by decide)

/-- C3: every item returned by the recency filter was created at most
86400 seconds before the time of the call and has type story. -/
theorem getTodaysTopStories_recent_and_story (topR : FetchOutcome (List Int))
    (itemW : Int → FetchOutcome (Option HNItem)) (now count : Int) (item : HNItem)
    (h : item ∈ getTodaysTopStories topR itemW now count) :
    now - 86400 ≤ item.time ∧ item.type = HNType.story := by
  unfold getTodaysTopStories at h
  simp only [List.mem_filter, Bool.and_eq_true, decide_eq_true_eq] at h
  exact ⟨by omega, h.2.2⟩

/-- C3 witness: a concrete run (feed [1], item 1 created at time 100,
call time 100) returns an item, and the filter conditions hold of it. -/
theorem getTodaysTopStories_recent_and_story_witness :
    (100 : Int) - 86400 ≤ sampleItem.time ∧ sampleItem.type = HNType.story :=
  getTodaysTopStories_recent_and_story (FetchOutcome.resp 200 "" [1]) sampleItemWorld
    100 5 sampleItem (by decide)

/-- C5: for every limit N ≤ 50, each of the three list fetchers returns
at most N identifiers; when the feed responds, the result also has at
most the feed's length and, on an ok response, is exactly the first N
entries of the feed in feed order; on a rejected fetch or a non-ok
response the result is empty. -/
theorem listFetch_limit_bounds (N : Nat) (_hN : N ≤ 50) (r : FetchOutcome (List Int)) :
    ((getTopStories r (N : Int)).length ≤ N
      ∧ (getNewStories r (N : Int)).length ≤ N
      ∧ (getBestStories r (N : Int)).length ≤ N)
    ∧ (∀ st bt feed, r = FetchOutcome.resp st bt feed →
        ((getTopStories r (N : Int)).length ≤ feed.length
          ∧ (getNewStories r (N : Int)).length ≤ feed.length
          ∧ (getBestStories r (N : Int)).length ≤ feed.length)
        ∧ (respOk st = true →
            getTopStories r (N : Int) = feed.take N
            ∧ getNewStories r (N : Int) = feed.take N
            ∧ getBestStories r (N : Int) = feed.take N)
        ∧ (respOk st = false →
            getTopStories r (N : Int) = []
            ∧ getNewStories r (N : Int) = []
            ∧ getBestStories r (N : Int) = []))
    ∧ (∀ exn, r = FetchOutcome.throw exn →
        getTopStories r (N : Int) = []
        ∧ getNewStories r (N : Int) = []
        ∧ getBestStories r (N : Int) = []) := by
  have htop : ∀ st bt (feed : List Int), respOk st = true →
      getTopStories (FetchOutcome.resp st bt feed) (N : Int) = feed.take N := by
    intro st bt feed hok
    rw [getTopStories_resp, if_pos hok, jsSlice0_ofNat]
  have htopbad : ∀ st bt (feed : List Int), respOk st = false →
      getTopStories (FetchOutcome.resp st bt feed) (N : Int) = [] := by
    intro st bt feed hok
    rw [getTopStories_resp, if_neg (by simp [hok])]
  have hlen : ∀ (feed : List Int), (feed.take N).length ≤ N ∧ (feed.take N).length ≤ feed.length := by
    intro feed
    rw [List.length_take]
    omega
  refine ⟨?_, ?_, ?_⟩
  · rcases r with exn | ⟨st, bt, feed⟩
    · simp [getTopStories_throw, getNewStories_eq_getTopStories, getBestStories_eq_getTopStories]
    · rcases Bool.eq_false_or_eq_true (respOk st) with hok | hok
      · simp [getNewStories_eq_getTopStories, getBestStories_eq_getTopStories, htop st bt feed hok,
          (hlen feed).1]
      · simp [getNewStories_eq_getTopStories, getBestStories_eq_getTopStories, htopbad st bt feed hok]
  · rintro st bt feed rfl
    refine ⟨?_, fun hok => ?_, fun hok => ?_⟩
    · rcases Bool.eq_false_or_eq_true (respOk st) with hok | hok
      · simp [getNewStories_eq_getTopStories, getBestStories_eq_getTopStories, htop st bt feed hok,
          (hlen feed).2]
      · simp [getNewStories_eq_getTopStories, getBestStories_eq_getTopStories, htopbad st bt feed hok]
    · simp [getNewStories_eq_getTopStories, getBestStories_eq_getTopStories, htop st bt feed hok]
    · simp [getNewStories_eq_getTopStories, getBestStories_eq_getTopStories, htopbad st bt feed hok]
  · rintro exn rfl
    simp [getTopStories_throw, getNewStories_eq_getTopStories, getBestStories_eq_getTopStories]

/-- C5 witness: limit 3 on a five-element feed returns the first three
entries, within both bounds. -/
theorem listFetch_limit_bounds_witness :
    (3 : Nat) ≤ 50
    ∧ getTopStories (FetchOutcome.resp 200 "" [10, 20, 30, 40, 50]) ((3 : Nat) : Int)
        = [10, 20, 30]
    ∧ (getTopStories (FetchOutcome.resp 200 "" [10, 20, 30, 40, 50]) ((3 : Nat) : Int)).length ≤ 3 :=
  ⟨by decide,
   (((listFetch_limit_bounds 3 (by decide)
        (FetchOutcome.resp 200 "" [10, 20, 30, 40, 50])).2.1 200 ""
        [10, 20, 30, 40, 50] rfl).2.1 (by decide)).1,
   (listFetch_limit_bounds 3 (by decide)
      (FetchOutcome.resp 200 "" [10, 20, 30, 40, 50])).1.1⟩

/-- C9: for a negative limit n, each list fetcher applied to an ok feed
response returns the feed with its last |n| elements removed (the
JavaScript slice(0, n) semantics), not a list bounded by n. -/
theorem listFetch_negative_limit (n : Int) (hn : n < 0) (st : Nat) (hok : respOk st = true)
    (bt : String) (feed : List Int) :
    getTopStories (FetchOutcome.resp st bt feed) n = feed.take (feed.length - (-n).toNat)
    ∧ getNewStories (FetchOutcome.resp st bt feed) n = feed.take (feed.length - (-n).toNat)
    ∧ getBestStories (FetchOutcome.resp st bt feed) n = feed.take (feed.length - (-n).toNat) := by
  have h : getTopStories (FetchOutcome.resp st bt feed) n
      = feed.take (feed.length - (-n).toNat) := by
    rw [getTopStories_resp, if_pos hok, jsSlice0_neg feed n hn]
  exact ⟨h, by rw [getNewStories_eq_getTopStories]; exact h,
    by rw [getBestStories_eq_getTopStories]; exact h⟩

/-- C9 witness: limit -1 on the feed [1, 2, 3] returns [1, 2] — the
feed with its last element removed, a two-element result for a
"limit" of -1. -/
theorem listFetch_negative_limit_witness :
    getTopStories (FetchOutcome.resp 200 "" [1, 2, 3]) (-1) = [1, 2]
    ∧ getNewStories (FetchOutcome.resp 200 "" [1, 2, 3]) (-1) = [1, 2]
    ∧ getBestStories (FetchOutcome.resp 200 "" [1, 2, 3]) (-1) = [1, 2] :=
  listFetch_negative_limit (-1) (by decide) 200 (by decide) "" [1, 2, 3]

/-- A world answering every scrape request with HTTP 500 and body
"server error". -/
def status500World : ScrapeRequest → FetchOutcome FirecrawlScrapeResult :=
  fun _ => FetchOutcome.resp 500 "server error" { success := true }

/-- A world whose every scrape request rejects with an `Error` whose
message is "socket hang up". -/
def socketErrorWorld : ScrapeRequest → FetchOutcome FirecrawlScrapeResult :=
  fun _ => FetchOutcome.throw (JSException.error "socket hang up")

/-- C7: a scrape call that receives a non-success HTTP response with
status S and body text B returns a failure whose error string is
"Firecrawl API error: S - B" (so it contains both S and B), and a
transport-level exception carrying an `Error` with message M returns
a failure with error exactly M. -/
theorem scrapeUrl_error_mapping (world : ScrapeRequest → FetchOutcome FirecrawlScrapeResult)
    (url apiKey : String) (options : FirecrawlScrapeOptions)
    (S : Nat) (B : String) (json : FirecrawlScrapeResult) (M : String) :
    (world (mkScrapeRequest url apiKey options) = FetchOutcome.resp S B json →
      respOk S = false →
      (scrapeUrl world url apiKey options).1 =
        { success := false,
          error := some ("Firecrawl API error: " ++ toString S ++ " - " ++ B) })
    ∧ (world (mkScrapeRequest url apiKey options) =
        FetchOutcome.throw (JSException.error M) →
      (scrapeUrl world url apiKey options).1 = { success := false, error := some M }) := by
  constructor
  · intro hw hok
    simp [scrapeUrl, hw, hok]
  · intro hw
    simp [scrapeUrl, hw]

/-- C7 witness: status 500 with body "server error" yields the error
"Firecrawl API error: 500 - server error", and a rejection with message
"socket hang up" yields exactly that message. -/
theorem scrapeUrl_error_mapping_witness :
    (scrapeUrl status500World "https://example.com" "key" {}).1 =
      { success := false,
        error := some ("Firecrawl API error: " ++ toString (500 : Nat) ++ " - " ++ "server error") }
    ∧ (scrapeUrl socketErrorWorld "https://example.com" "key" {}).1 =
      { success := false, error := some "socket hang up" } :=
  ⟨(scrapeUrl_error_mapping status500World "https://example.com" "key" {} 500 "server error"
      { success := true } "").1 rfl (by decide),
   (scrapeUrl_error_mapping socketErrorWorld "https://example.com" "key" {} 0 ""
      { success := true } "socket hang up").2 rfl⟩

/-- C8: no public operation of the retrieval layer lets a network fault
escape. All operations are total functions in this embedding (the
caller never observes a thrown error), and on a transport-level
rejection or a non-success HTTP status: `getItem` returns null, the
three list fetchers return [], `searchStories` returns
`{hits: [], nbHits: 0}`, and `scrapeUrl` returns a result object
carrying an error. -/
theorem no_network_fault_escapes (exn : JSException) (S : Nat) (hS : respOk S = false)
    (bt : String) (itemJ : Option HNItem) (feedJ : List Int)
    (searchJ : AlgoliaSearchResult) (scrapeJ : FirecrawlScrapeResult)
    (n : Int) (url apiKey : String) (options : FirecrawlScrapeOptions) :
    getItem (FetchOutcome.throw exn) = none
    ∧ getItem (FetchOutcome.resp S bt itemJ) = none
    ∧ getTopStories (FetchOutcome.throw exn) n = []
    ∧ getTopStories (FetchOutcome.resp S bt feedJ) n = []
    ∧ getNewStories (FetchOutcome.throw exn) n = []
    ∧ getNewStories (FetchOutcome.resp S bt feedJ) n = []
    ∧ getBestStories (FetchOutcome.throw exn) n = []
    ∧ getBestStories (FetchOutcome.resp S bt feedJ) n = []
    ∧ searchStories (FetchOutcome.throw exn) = { hits := [], nbHits := 0 }
    ∧ searchStories (FetchOutcome.resp S bt searchJ) = { hits := [], nbHits := 0 }
    ∧ ((scrapeUrl (fun _ => FetchOutcome.throw exn) url apiKey options).1.success = false
        ∧ ((scrapeUrl (fun _ => FetchOutcome.throw exn) url apiKey options).1.error).isSome
            = true)
    ∧ ((scrapeUrl (fun _ => FetchOutcome.resp S bt scrapeJ) url apiKey options).1.success = false
        ∧ ((scrapeUrl (fun _ => FetchOutcome.resp S bt scrapeJ) url apiKey
            options).1.error).isSome = true) := by
  refine ⟨rfl, ?_, rfl, ?_, rfl, ?_, rfl, ?_, rfl, ?_, ?_, ?_⟩
  · simp [getItem, hS]
  · simp [getTopStories, hS]
  · simp [getNewStories, hS]
  · simp [getBestStories, hS]
  · simp [searchStories, hS]
  · cases exn <;> simp [scrapeUrl]
  · simp [scrapeUrl, hS]

/-- C8 witness: the fault cases at concrete inputs — an `Error`
rejection and an HTTP 503 response with a parseable body. -/
theorem no_network_fault_escapes_witness :
    getItem (FetchOutcome.throw (JSException.error "network down")) = none
    ∧ getItem (FetchOutcome.resp 503 "busy" (some sampleItem)) = none
    ∧ getTopStories (FetchOutcome.throw (JSException.error "network down")) 30 = []
    ∧ getTopStories (FetchOutcome.resp 503 "busy" [1, 2, 3]) 30 = []
    ∧ getNewStories (FetchOutcome.throw (JSException.error "network down")) 30 = []
    ∧ getNewStories (FetchOutcome.resp 503 "busy" [1, 2, 3]) 30 = []
    ∧ getBestStories (FetchOutcome.throw (JSException.error "network down")) 30 = []
    ∧ getBestStories (FetchOutcome.resp 503 "busy" [1, 2, 3]) 30 = []
    ∧ searchStories (FetchOutcome.throw (JSException.error "network down"))
        = { hits := [], nbHits := 0 }
    ∧ searchStories (FetchOutcome.resp 503 "busy" { hits := [sampleHit], nbHits := 1 })
        = { hits := [], nbHits := 0 }
    ∧ ((scrapeUrl (fun _ => FetchOutcome.throw (JSException.error "network down"))
          "https://example.com" "key" {}).1.success = false
        ∧ ((scrapeUrl (fun _ => FetchOutcome.throw (JSException.error "network down"))
            "https://example.com" "key" {}).1.error).isSome = true)
    ∧ ((scrapeUrl (fun _ => FetchOutcome.resp 503 "busy" { success := true })
          "https://example.com" "key" {}).1.success = false
        ∧ ((scrapeUrl (fun _ => FetchOutcome.resp 503 "busy" { success := true })
            "https://example.com" "key" {}).1.error).isSome = true) :=
  no_network_fault_escapes (JSException.error "network down") 503 (by decide) "busy"
    (some sampleItem) [1, 2, 3] { hits := [sampleHit], nbHits := 1 } { success := true }
    30 "https://example.com" "key" {}

/-- C10: `scrapeUrl` itself performs no discussion-page guard and no
API-key validation: for every URL (including discussion-page URLs) and
every API key (including the empty string) it issues exactly one POST
carrying that URL and that key; the guard and the key check live only
in the `fetch_article` tool wrapper, whose trace is empty in those two
branches. -/
theorem scrapeUrl_no_guard (world : ScrapeRequest → FetchOutcome FirecrawlScrapeResult)
    (url apiKey : String) (options : FirecrawlScrapeOptions)
    (key2 : String) (input : FetchArticleInput) :
    (scrapeUrl world url apiKey options).2 = [mkScrapeRequest url apiKey options]
    ∧ (mkScrapeRequest url apiKey options).url = url
    ∧ (mkScrapeRequest url apiKey options).apiKey = apiKey
    ∧ (fetchArticleExecute world "" input).2 = []
    ∧ (jsIncludes input.url hnDiscussionPattern = true → key2 ≠ "" →
        (fetchArticleExecute world key2 input).2 = []) := by
  refine ⟨?_, rfl, rfl, rfl, ?_⟩
  · cases hw : world (mkScrapeRequest url apiKey options) with
    | throw exn => simp [scrapeUrl, hw]
    | resp st bt json =>
        rcases Bool.eq_false_or_eq_true (respOk st) with h | h <;> simp [scrapeUrl, hw, h]
  · intro hpat hk
    unfold fetchArticleExecute
    rw [if_neg hk, if_pos hpat]

/-- C10 witness: with the discussion URL with id 9 and the empty key,
`scrapeUrl` still issues its request, while the wrapper (with a
non-empty key) short-circuits on the same URL. -/
theorem scrapeUrl_no_guard_witness :
    (scrapeUrl throwWorld "https://news.ycombinator.com/item?id=9" "" {}).2 =
      [mkScrapeRequest "https://news.ycombinator.com/item?id=9" "" {}]
    ∧ (fetchArticleExecute throwWorld "key"
        { url := "https://news.ycombinator.com/item?id=9" }).2 = [] :=
  ⟨(scrapeUrl_no_guard throwWorld "https://news.ycombinator.com/item?id=9" "" {} "key"
      { url := "https://news.ycombinator.com/item?id=9" }).1,
   (scrapeUrl_no_guard throwWorld "https://news.ycombinator.com/item?id=9" "" {} "key"
      { url := "https://news.ycombinator.com/item?id=9" }).2.2.2.2 (by decide) (by decide)⟩

end HN
